import Mathlib

/-!
Verification development for the symbol-acquisition pipeline of the
`short-term-contrarian` repository.

The definitions below are a shallow embedding of the Python sources:

* `src/src/data_acquisition/exchange.py` — the `Exchange` dataclass, its
  `get_symbols` pipeline and `ticker_exists` validator;
* `src/src/data_acquisition/get_symbols.py` — the multi-exchange driver
  `get_all_symbols`;
* `src/config/exchanges.py` — the configured pattern/replacement pairs
  (their matching semantics, translated rule by rule);
* `src/scripts/symbols.py` — the older `Symbols` class with its suffix-based
  normalization and its unguarded `ticker_exists`.

Modelling conventions:

* Machine effects (network fetch, cache file, validator service) are passed
  explicitly through a `FetchEnv` record; the pipeline additionally returns a
  trace of the externally visible events it performed, in order.
* All patterns used by the repository are anchored at the start of the string
  and match at most once, so a compiled pattern/replacement pair is embedded
  by its substitution semantics, a function `String → Option String`
  returning the whole-string result of the substitution when the pattern
  matched and `none` when it did not; `re.sub` then is `(sub x).getD x`.
* `\d` and `\s` are modelled over ASCII (the source data is ASCII).
* A table is represented by its ticker column (the only column the pipeline
  reads or rewrites); a pandas cell is `Option String`, `none` being NaN.
-/

/-- ASCII uppercase-letter test, the character class of the configured
pattern rules in `config/exchanges.py`. -/
def isUpperAZ (c : Char) : Bool :=
  decide ('A' ≤ c) && decide (c ≤ 'Z')

/-- ASCII whitespace, the characters matched by the patterns' `\s`. -/
def isPySpace (c : Char) : Bool :=
  c = ' ' || c = '\t' || c = '\n' || c = '\r' || c = '\x0b' || c = '\x0c'

/-- Consume an expected literal run of characters from the front of `cs`,
returning the remainder, or `none` if `cs` does not start with it. -/
def stripLit : List Char → List Char → Option (List Char)
  | [], cs => some cs
  | _ :: _, [] => none
  | p :: ps, c :: cs => if c = p then stripLit ps cs else none

/-- If a footnote marker — `%5B` digits `%5D`, or `[` digits `]`, with one or
more digits, as in the regex `(%5B\d+%5D|\[\d+\])` of
`src/src/data_acquisition/exchange.py` line 70 — starts at the head of `cs`,
return the remainder after it. The digit run and the closing literal use
disjoint characters, so maximal-munch equals the regex's greedy match. -/
def footnoteTail (cs : List Char) : Option (List Char) :=
  match cs with
  | '%' :: '5' :: 'B' :: rest =>
    (match rest with
     | c :: rest2 =>
       if c.isDigit then
         match rest2.dropWhile Char.isDigit with
         | '%' :: '5' :: 'D' :: rest3 => some rest3
         | _ => none
       else none
     | [] => none)
  | '[' :: rest =>
    (match rest with
     | c :: rest2 =>
       if c.isDigit then
         match rest2.dropWhile Char.isDigit with
         | ']' :: rest3 => some rest3
         | _ => none
       else none
     | [] => none)
  | _ => none

/-- Left-to-right scan of `re.sub(r'(%5B\d+%5D|\[\d+\])', '', x)`: delete each
leftmost marker and continue after it, otherwise keep the character and move
on. The fuel starts at the length of the list and every step consumes at
least one character, so it never runs out. -/
def stripFootnotesAux : Nat → List Char → List Char
  | 0, cs => cs
  | _ + 1, [] => []
  | fuel + 1, c :: cs =>
    match footnoteTail (c :: cs) with
    | some rest => stripFootnotesAux fuel rest
    | none => c :: stripFootnotesAux fuel cs

/-- Footnote-marker stripping pass, line 70 of
`src/src/data_acquisition/exchange.py` (also line 142 of
`src/scripts/symbols.py`). -/
def stripFootnotes (s : String) : String :=
  String.mk (stripFootnotesAux s.data.length s.data)

/-- The matching semantics of a compiled, anchored pattern/replacement pair:
`some y` when the pattern matches and the substitution yields `y`, `none`
when the pattern does not match. -/
abbrev PatternSub := String → Option String

/-- `re.sub(pattern, repl, x)` for an anchored at-most-once pattern: the
substituted string on a match, the input unchanged otherwise. -/
def applySub (m : PatternSub) (x : String) : String :=
  (m x).getD x

/-- Lines 69–70 of `src/src/data_acquisition/exchange.py`: the rule
substitution pass over the ticker column, then the footnote-stripping pass
over the result of the first pass. -/
def normalizeColumn (m : PatternSub) (col : List String) : List String :=
  (col.map (applySub m)).map stripFootnotes

/-- Line 80 of `src/src/data_acquisition/exchange.py`: keep each ticker the
validator accepts, replace each rejected one by the sentinel. -/
def substituteInvalid (v : String → Bool) (tickers : List String) : List String :=
  tickers.map (fun t => if v t then t else "invalid_ticker")

/-- Semantics of the pair `(r'^([A-Z]{1,5})$', r'\1')` used by the DJIA,
S&P 500 and NASDAQ-100 profiles in `src/config/exchanges.py`: the pattern
matches exactly the strings of one to five ASCII uppercase letters, and the
replacement is the capture, i.e. the string itself. -/
def djiaSub : PatternSub := fun s =>
  if (decide (1 ≤ s.length) && decide (s.length ≤ 5) && s.data.all isUpperAZ) = true
  then some s else none

/-- Semantics of the CSI_100 / CSI_300 pair in `src/config/exchanges.py`:
pattern `^(SSE:\s*(\d+)|SZSE:\s*(\d+))$` with replacement
`lambda m: f"{m.group(2)}.SS" if m.group(2) else f"{m.group(3)}.SZ"`.
The first alternative is tried first, as the regex engine does; whitespace
and digits are disjoint so greedy `\s*` then `\d+$` is exactly "drop
whitespace, then a non-empty all-digit remainder". -/
def csiSub : PatternSub := fun s =>
  let sse :=
    match stripLit ['S', 'S', 'E', ':'] s.data with
    | some rest =>
      let ds := rest.dropWhile isPySpace
      if (!ds.isEmpty) && ds.all Char.isDigit
      then some (String.mk ds ++ ".SS") else none
    | none => none
  match sse with
  | some r => some r
  | none =>
    match stripLit ['S', 'Z', 'S', 'E', ':'] s.data with
    | some rest =>
      let ds := rest.dropWhile isPySpace
      if (!ds.isEmpty) && ds.all Char.isDigit
      then some (String.mk ds ++ ".SZ") else none
    | none => none

/-- The `Exchange` dataclass of `src/src/data_acquisition/exchange.py`
(lines 14–26). `table_number` is a Python `int`, so it may be negative; the
pattern/replacement pair is embedded by its substitution semantics. -/
structure Exchange where
  name : String
  url : String
  table_number : Int
  pattern_and_replacement : PatternSub
  column_key : String
  filename : String

/-- Python list indexing `l[i]`: non-negative indices from the front,
negative indices counting from the back, `none` standing for the raised
`IndexError` when the index is out of range either way. -/
def pyIndex {α : Type} (l : List α) (i : Int) : Option α :=
  if 0 ≤ i then l[i.toNat]?
  else if 0 ≤ i + (l.length : Int) then l[(i + (l.length : Int)).toNat]?
  else none

/-- The external world one `get_symbols` call runs against: the cache file
for this exchange (its persisted ticker column, `none` when the file does
not exist), the outcome of `pd.read_html(url)` (each table reduced to its
ticker column), and the behaviour of the ticker-existence service as seen
through `ticker_exists` (which never raises, see below). -/
structure FetchEnv where
  cacheFile : Option (List String)
  readHtml : Except String (List (List String))
  validator : String → Bool

/-- Externally visible events of one pipeline run, in order: invoking the
source table provider, writing the cache file, validating one ticker. -/
inductive Event where
  | fetchSource : Event
  | cacheWrite : List String → Event
  | validate : String → Event
deriving DecidableEq, Repr

/-- Result of one `get_symbols` call: the returned symbol list, the cache
file contents after the call, and the ordered event trace. -/
structure RunResult where
  symbols : List String
  cacheAfter : Option (List String)
  trace : List Event
deriving DecidableEq, Repr

/-- `Exchange.get_symbols` (`src/src/data_acquisition/exchange.py`,
lines 29–81). Cache hit (lines 40–46): return the ticker column of the
cached table directly. Cache miss: `pd.read_html` failures (lines 49–57)
and an out-of-range table index (lines 59–63) each return the empty list;
otherwise normalize the column (lines 68–70), persist the normalized table
(line 75), then validate each ticker (line 80). -/
def get_symbols (ex : Exchange) (env : FetchEnv) : RunResult :=
  match env.cacheFile with
  | some tbl => { symbols := tbl, cacheAfter := some tbl, trace := [] }
  | none =>
    match env.readHtml with
    | Except.error _ => { symbols := [], cacheAfter := none, trace := [Event.fetchSource] }
    | Except.ok tables =>
      match pyIndex tables ex.table_number with
      | none => { symbols := [], cacheAfter := none, trace := [Event.fetchSource] }
      | some rawCol =>
        let normalized := normalizeColumn ex.pattern_and_replacement rawCol
        { symbols := substituteInvalid env.validator normalized
          cacheAfter := some normalized
          trace := [Event.fetchSource, Event.cacheWrite normalized]
                     ++ normalized.map Event.validate }

/-- The environment after one `get_symbols` run with the cache file left
untouched by anything else: the file now holds what the run left there. -/
def afterRun (env : FetchEnv) (ex : Exchange) : FetchEnv :=
  { env with cacheFile := (get_symbols ex env).cacheAfter }

/-- Whether a cache-miss run fails before reaching normalization: the source
fetch raised, or the configured table index is out of range. -/
def sourceFetchFailed (env : FetchEnv) (ex : Exchange) : Bool :=
  match env.readHtml with
  | Except.error _ => true
  | Except.ok tables => (pyIndex tables ex.table_number).isNone

/-- `get_all_symbols` (`src/src/data_acquisition/get_symbols.py`,
lines 16–27): iterate the configured exchanges in order, calling
`get_symbols` on each with its own environment (its own cache file, source
URL and validator behaviour), collecting name-keyed results. -/
def get_all_symbols (exchanges : List (String × Exchange))
    (envs : String → FetchEnv) : List (String × List String) :=
  exchanges.map (fun p => (p.1, (get_symbols p.2 (envs p.1)).symbols))

/-- A call to `yf.Ticker(t).info` as seen by its caller: `ok b` with `b` the
truthiness of the returned info dict, or a raised exception. -/
abbrev YfLookup := String → Except String Bool

/-- `Exchange.ticker_exists` (`src/src/data_acquisition/exchange.py`,
lines 84–101): the lookup is wrapped in try/except, every exception is
caught and yields `false`. -/
def ticker_exists (lookup : YfLookup) (t : String) : Bool :=
  match lookup t with
  | Except.ok b => b
  | Except.error _ => false

/-- `Symbols.ticker_exists` (`src/scripts/symbols.py`, lines 73–78): no
try/except — an exception from the lookup propagates to the caller. -/
def Symbols_ticker_exists (lookup : YfLookup) (t : String) : Except String Bool :=
  match lookup t with
  | Except.ok b => Except.ok (if b then true else false)
  | Except.error e => Except.error e

/-- A pandas cell: `none` models a missing value (NaN). -/
abbrev Cell := Option String

/-- Element-wise semantics of the pandas expression
`table[column_key] + text` (`src/scripts/symbols.py` line 137, suffix
`".L"`; line 140, suffix `".AT"`): the text is appended to every string
cell, and a missing cell stays missing. -/
def suffixCell (text : String) (c : Cell) : Cell :=
  c.map (fun raw => raw ++ text)

/-- Construction of an `Exchange`
(`src/src/data_acquisition/exchange.py` lines 14–26): the generated
dataclass `__init__` stores the fields and `__post_init__` only logs, so
construction performs no validation and never fails. -/
def mkExchange (name url : String) (table_number : Int) (pr : PatternSub)
    (column_key filename : String) : Except String Exchange :=
  Except.ok { name := name, url := url, table_number := table_number
              pattern_and_replacement := pr, column_key := column_key
              filename := filename }

/-- Modelled from the spec: §4.1 requires profile construction to fail with
a `ConfigurationError` when `table_index` is negative (the repository's
`Exchange` has no such check; rule-compilation failures are not
representable here because rules are embedded by their compiled
semantics). Stated for comparison with `mkExchange`. -/
def specMkExchange (name url : String) (table_number : Int) (pr : PatternSub)
    (column_key filename : String) : Except String Exchange :=
  if table_number < 0 then Except.error "ConfigurationError"
  else Except.ok { name := name, url := url, table_number := table_number
                   pattern_and_replacement := pr, column_key := column_key
                   filename := filename }

/-- The DJIA profile of `src/config/exchanges.py` (lines 5–12), its
pattern/replacement pair embedded by its semantics `djiaSub`. -/
def exDJIA : Exchange :=
  { name := "DOW_JONES"
    url := "https://en.wikipedia.org/wiki/Dow_Jones_Industrial_Average"
    table_number := 2, pattern_and_replacement := djiaSub
    column_key := "Symbol", filename := "symbols_djia.csv" }

/-- A minimal profile with a pass-through-capable rule and table index 0,
used to exercise single-table worlds. -/
def exPass : Exchange :=
  { name := "X", url := "u", table_number := 0
    pattern_and_replacement := djiaSub, column_key := "Symbol"
    filename := "x.csv" }

/-- A world with no cache file, a reachable source whose third table has
ticker column `["MSFT"]`, and a validator that rejects every ticker. -/
def envRejectAll : FetchEnv :=
  { cacheFile := none, readHtml := Except.ok [[], [], ["MSFT"]]
    validator := fun _ => false }

/-- The same world with a validator that accepts every ticker. -/
def envAcceptAll : FetchEnv :=
  { cacheFile := none, readHtml := Except.ok [[], [], ["MSFT"]]
    validator := fun _ => true }

/-- A world whose cache file exists (holding column `["AAPL"]`) and whose
source is unreachable, so any fetch attempt would fail. -/
def envCachedHit : FetchEnv :=
  { cacheFile := some ["AAPL"], readHtml := Except.error "offline"
    validator := fun _ => false }

/-- A world whose source table contains the literal string
`"invalid_ticker"` as a raw cell value. -/
def envSentinelRaw : FetchEnv :=
  { cacheFile := none, readHtml := Except.ok [["invalid_ticker"]]
    validator := fun _ => true }

/-- Three configured exchanges, in insertion order, as `get_all_symbols`
iterates them. -/
def exList3 : List (String × Exchange) :=
  [("A", exPass), ("B", exPass), ("C", exPass)]

/-- Per-exchange worlds where exchange `"B"`'s source URL is unreachable and
the other two fetch a one-table page with ticker column `["MSFT"]`. -/
def envsOneDown : String → FetchEnv := fun n =>
  if n = "B" then
    { cacheFile := none, readHtml := Except.error "unreachable"
      validator := fun _ => true }
  else
    { cacheFile := none, readHtml := Except.ok [["MSFT"]]
      validator := fun _ => true }

/-- Pointwise behaviour of the sentinel-substitution pass of line 80 of
`src/src/data_acquisition/exchange.py`. -/
theorem substituteInvalid_getElem (v : String → Bool) (l : List String) (i : Nat) :
    (substituteInvalid v l)[i]? =
      (l[i]?).map (fun t => if v t then t else "invalid_ticker") := by
  simp [substituteInvalid, List.getElem?_map]

/-- A cache-miss run whose source fetch fails, or whose table index is out
of range, returns the empty list. -/
theorem get_symbols_failed_empty (ex : Exchange) (env : FetchEnv)
    (h1 : env.cacheFile = none) (h2 : sourceFetchFailed env ex = true) :
    (get_symbols ex env).symbols = [] := by
  cases hh : env.readHtml with
  | error e => simp [get_symbols, h1, hh]
  | ok tables =>
    cases ht : pyIndex tables ex.table_number with
    | none => simp [get_symbols, h1, hh, ht]
    | some r => simp [sourceFetchFailed, hh, ht] at h2

/-- C3: for every raw cell value and pattern rule, normalization applies the
regex substitution first and footnote-marker stripping second; a
non-matching pattern leaves the raw value unchanged before stripping; in
particular normalizing `"MSFT[1]"` under the repository's pass-through
pattern rule yields exactly `"MSFT"`. -/
theorem normalizeColumn_sub_then_strip (m : PatternSub) (raw : String)
    (col : List String) :
    normalizeColumn m col = col.map (fun x => stripFootnotes (applySub m x))
    ∧ (m raw = none → normalizeColumn m [raw] = [stripFootnotes raw])
    ∧ normalizeColumn djiaSub ["MSFT[1]"] = ["MSFT"] := by
  refine ⟨by simp [normalizeColumn, List.map_map, Function.comp], fun h => ?_, by decide⟩
  simp [normalizeColumn, applySub, h]

/-- C3 witness: `djiaSub` does not match `"MSFT[1]"`, so the substitution
pass leaves it unchanged and only footnote stripping applies. -/
theorem normalizeColumn_sub_then_strip_witness :
    normalizeColumn djiaSub ["MSFT[1]"] = [stripFootnotes "MSFT[1]"] :=
  (normalizeColumn_sub_then_strip djiaSub "MSFT[1]" []).2.1 (by decide)

/-- C4: position `i` of the validation pass's output is the input ticker at
`i` when the validator accepts it and the literal `"invalid_ticker"` when it
rejects it; no other position is affected and length and order are
preserved. -/
theorem substituteInvalid_pointwise (v : String → Bool) (l : List String) :
    (substituteInvalid v l).length = l.length
    ∧ ∀ i : Nat, (substituteInvalid v l)[i]? =
        (l[i]?).map (fun t => if v t then t else "invalid_ticker") :=
  ⟨by simp [substituteInvalid], fun i => substituteInvalid_getElem v l i⟩

/-- C5 counterexample: the pandas suffix append of `scripts/symbols.py`
appends to the empty string as well, so normalizing `""` with suffix `".L"`
yields `".L"`, not `""` as the claim states. -/
theorem suffixCell_empty_counterexample :
    suffixCell ".L" (some "") = some ".L"
    ∧ suffixCell ".L" (some "") ≠ some "" := by decide

/-- C5 as amended: the suffix is appended to every string cell, the empty
string included; only a missing (NaN) cell is left unchanged. `"BARC"`
yields `"BARC.L"` and `""` yields `".L"`. -/
theorem suffixCell_appends_always (text raw : String) :
    suffixCell text (some raw) = some (raw ++ text)
    ∧ suffixCell text none = none
    ∧ suffixCell ".L" (some "BARC") = some "BARC.L"
    ∧ suffixCell ".L" (some "") = some ".L" :=
  ⟨rfl, rfl, by decide, by decide⟩

/-- C6: the CSI dual-alternative rule routes on which capture-group
alternative matched: `"SSE: 600000"` normalizes to `"600000.SS"` and
`"SZSE: 000001"` to `"000001.SZ"`. -/
theorem csi_group_routing :
    normalizeColumn csiSub ["SSE: 600000"] = ["600000.SS"]
    ∧ normalizeColumn csiSub ["SZSE: 000001"] = ["000001.SZ"] := by decide

/-- C7: when the cache file exists, `get_symbols` returns its ticker column
directly and neither the source table provider nor the ticker validator is
ever invoked. -/
theorem cache_hit_short_circuit (ex : Exchange) (env : FetchEnv)
    (tbl : List String) (h : env.cacheFile = some tbl) :
    (get_symbols ex env).symbols = tbl
    ∧ Event.fetchSource ∉ (get_symbols ex env).trace
    ∧ ∀ t, Event.validate t ∉ (get_symbols ex env).trace := by
  simp [get_symbols, h]

/-- C7 witness: a cached run of the DJIA profile against an unreachable
source returns the cached column and performs no fetch. -/
theorem cache_hit_short_circuit_witness :
    (get_symbols exDJIA envCachedHit).symbols = ["AAPL"]
    ∧ Event.fetchSource ∉ (get_symbols exDJIA envCachedHit).trace :=
  ⟨(cache_hit_short_circuit exDJIA envCachedHit ["AAPL"] rfl).1,
   (cache_hit_short_circuit exDJIA envCachedHit ["AAPL"] rfl).2.1⟩

/-- C1 counterexample: with a validator that rejects `"MSFT"`, the first
(cache-miss) run returns `["invalid_ticker"]` but persists `["MSFT"]`, and
the second (cache-hit) run returns `["MSFT"]`: the two runs differ even
though the cache file is untouched between them. -/
theorem fetch_twice_differs_counterexample :
    (get_symbols exDJIA (afterRun envRejectAll exDJIA)).symbols
      ≠ (get_symbols exDJIA envRejectAll).symbols := by decide

/-- C1 as amended: if the validator accepts every ticker, running
`get_symbols` twice with the cache file untouched in between yields
identical symbol lists; in general the second run returns the persisted
normalized column, which matches the first run only where validation
succeeded. -/
theorem fetch_twice_idempotent (ex : Exchange) (env : FetchEnv)
    (hv : ∀ t, env.validator t = true) :
    (get_symbols ex (afterRun env ex)).symbols = (get_symbols ex env).symbols := by
  cases hc : env.cacheFile with
  | some tbl => simp [get_symbols, afterRun, hc]
  | none =>
    cases hh : env.readHtml with
    | error e => simp [get_symbols, afterRun, hc, hh]
    | ok tables =>
      cases ht : pyIndex tables ex.table_number with
      | none => simp [get_symbols, afterRun, hc, hh, ht]
      | some rawCol =>
        have hid : substituteInvalid env.validator
            (normalizeColumn ex.pattern_and_replacement rawCol)
            = normalizeColumn ex.pattern_and_replacement rawCol := by
          simp [substituteInvalid, hv]
        simp [get_symbols, afterRun, hc, hh, ht, hid]

/-- C1 witness: with an all-accepting validator the two successive DJIA runs
agree. -/
theorem fetch_twice_idempotent_witness :
    (get_symbols exDJIA (afterRun envAcceptAll exDJIA)).symbols
      = (get_symbols exDJIA envAcceptAll).symbols :=
  fetch_twice_idempotent exDJIA envAcceptAll (fun _ => rfl)

/-- C10 as amended: on a cache-miss run that reaches normalization, the
persisted column is exactly the normalized column, written before any
validator call (the cache-write event precedes every validation event in
the trace); no sentinel substitution is applied to it, and the returned
list differs from it exactly by the sentinel substitution, i.e. only at
positions where validation returned false. -/
theorem persisted_before_validation (ex : Exchange) (env : FetchEnv)
    (tables : List (List String)) (rawCol : List String)
    (hc : env.cacheFile = none)
    (hh : env.readHtml = Except.ok tables)
    (ht : pyIndex tables ex.table_number = some rawCol) :
    (get_symbols ex env).cacheAfter
        = some (normalizeColumn ex.pattern_and_replacement rawCol)
    ∧ (get_symbols ex env).trace[1]?
        = some (Event.cacheWrite (normalizeColumn ex.pattern_and_replacement rawCol))
    ∧ (∀ j t, (get_symbols ex env).trace[j]? = some (Event.validate t) → 1 < j)
    ∧ (∀ i : Nat, (get_symbols ex env).symbols[i]?
        = ((normalizeColumn ex.pattern_and_replacement rawCol)[i]?).map
            (fun t => if env.validator t then t else "invalid_ticker")) := by
  have hrun : get_symbols ex env =
      { symbols := substituteInvalid env.validator
          (normalizeColumn ex.pattern_and_replacement rawCol)
        cacheAfter := some (normalizeColumn ex.pattern_and_replacement rawCol)
        trace := [Event.fetchSource,
                  Event.cacheWrite (normalizeColumn ex.pattern_and_replacement rawCol)]
                   ++ (normalizeColumn ex.pattern_and_replacement rawCol).map
                        Event.validate } := by
    simp [get_symbols, hc, hh, ht]
  refine ⟨by rw [hrun], by rw [hrun]; simp, ?_, ?_⟩
  · intro j t hj
    rw [hrun] at hj
    match j with
    | 0 => simp at hj
    | 1 => simp at hj
    | j + 2 => omega
  · intro i
    rw [hrun]
    exact substituteInvalid_getElem env.validator _ i

/-- C10 witness: the DJIA cache-miss run against the reject-all validator
persists the normalized column `["MSFT"]` and its cache write sits at trace
position 1, ahead of every validation event. -/
theorem persisted_before_validation_witness :
    (get_symbols exDJIA envRejectAll).cacheAfter
        = some (normalizeColumn exDJIA.pattern_and_replacement ["MSFT"])
    ∧ (get_symbols exDJIA envRejectAll).trace[1]?
        = some (Event.cacheWrite (normalizeColumn exDJIA.pattern_and_replacement ["MSFT"])) :=
  ⟨(persisted_before_validation exDJIA envRejectAll [[], [], ["MSFT"]] ["MSFT"]
      rfl rfl (by decide)).1,
   (persisted_before_validation exDJIA envRejectAll [[], [], ["MSFT"]] ["MSFT"]
      rfl rfl (by decide)).2.1⟩

/-- C10 counterexample: a raw table whose ticker cell is the literal string
`"invalid_ticker"` normalizes to itself, so the persisted column does
contain the sentinel value, against the claim's "never contains". -/
theorem persisted_sentinel_counterexample :
    (get_symbols exPass envSentinelRaw).cacheAfter = some ["invalid_ticker"]
    ∧ "invalid_ticker" ∈ ((get_symbols exPass envSentinelRaw).cacheAfter.getD []) := by
  decide

/-- C2: the batch driver returns one entry per configured exchange, in
order and under its name; an exchange whose cache is absent and whose
source fetch fails (or whose table index is out of range) gets the empty
list; and every exchange's entry is a function of its own environment
alone, so one exchange's failure cannot affect another's entry. -/
theorem get_all_symbols_partial_failure
    (exchanges : List (String × Exchange)) (envs : String → FetchEnv)
    (i : Nat) (p : String × Exchange)
    (hp : exchanges[i]? = some p)
    (hc : (envs p.1).cacheFile = none)
    (hf : sourceFetchFailed (envs p.1) p.2 = true) :
    (get_all_symbols exchanges envs).length = exchanges.length
    ∧ (get_all_symbols exchanges envs)[i]? = some (p.1, [])
    ∧ ∀ (j : Nat) (q : String × Exchange) (envs2 : String → FetchEnv),
        exchanges[j]? = some q →
        envs2 q.1 = envs q.1 →
        (get_all_symbols exchanges envs2)[j]?
          = some (q.1, (get_symbols q.2 (envs q.1)).symbols) := by
  refine ⟨by simp [get_all_symbols], ?_, ?_⟩
  · simp [get_all_symbols, List.getElem?_map, hp,
      get_symbols_failed_empty p.2 (envs p.1) hc hf]
  · intro j q envs2 hj he
    simp [get_all_symbols, List.getElem?_map, hj, he]

/-- C2 witness: three exchanges where the second's source is unreachable:
three entries come back, the second is empty, the first is populated with
its own fetch result `["MSFT"]`. -/
theorem get_all_symbols_partial_failure_witness :
    (get_all_symbols exList3 envsOneDown).length = exList3.length
    ∧ (get_all_symbols exList3 envsOneDown)[1]? = some ("B", [])
    ∧ (get_all_symbols exList3 envsOneDown)[0]?
        = some ("A", (get_symbols exPass (envsOneDown "A")).symbols)
    ∧ (get_symbols exPass (envsOneDown "A")).symbols = ["MSFT"] := by
  have T := get_all_symbols_partial_failure exList3 envsOneDown 1 ("B", exPass)
    rfl (by decide) (by decide)
  exact ⟨T.1, T.2.1, T.2.2 0 ("A", exPass) envsOneDown rfl rfl, by decide⟩

/-- C8 counterexample: constructing an `Exchange` with `table_number = -1`
succeeds — the dataclass performs no validation — whereas the spec-modelled
constructor rejects it with a `ConfigurationError`. -/
theorem mkExchange_negative_index_counterexample :
    (mkExchange "X" "u" (-1) djiaSub "Symbol" "x.csv").isOk = true
    ∧ (specMkExchange "X" "u" (-1) djiaSub "Symbol" "x.csv").isOk = false :=
  ⟨rfl, by decide⟩

/-- C8 as amended: `Exchange` construction never fails, for any field
values whatsoever — a negative table index or a degenerate rule is stored
as-is, and `__post_init__` only logs. -/
theorem mkExchange_never_fails (name url : String) (tn : Int) (pr : PatternSub)
    (ck fn : String) :
    (mkExchange name url tn pr ck fn).isOk = true
    ∧ mkExchange name url tn pr ck fn
        = Except.ok { name := name, url := url, table_number := tn
                      pattern_and_replacement := pr, column_key := ck
                      filename := fn } :=
  ⟨rfl, rfl⟩

/-- C9 as amended: `Exchange.ticker_exists` never raises — a raised lookup
exception yields `false` and a returned info dict yields its truthiness —
while the `scripts/symbols.py` variant propagates lookup exceptions (see
the counterexample). -/
theorem ticker_exists_never_raises (lookup : YfLookup) (t : String) :
    (∀ e, lookup t = Except.error e → ticker_exists lookup t = false)
    ∧ (∀ b, lookup t = Except.ok b → ticker_exists lookup t = b) := by
  constructor
  · intro e h; simp [ticker_exists, h]
  · intro b h; simp [ticker_exists, h]

/-- C9 witness: a lookup that raises makes `Exchange.ticker_exists` return
`false` rather than propagate. -/
theorem ticker_exists_never_raises_witness :
    ticker_exists (fun _ => Except.error "HTTPError") "MSFT" = false :=
  (ticker_exists_never_raises (fun _ => Except.error "HTTPError") "MSFT").1
    "HTTPError" rfl

/-- C9 counterexample: the `scripts/symbols.py` validator has no exception
handler, so a raised lookup exception propagates out of it. -/
theorem scripts_ticker_exists_raises_counterexample :
    Symbols_ticker_exists (fun _ => Except.error "HTTPError") "MSFT"
      = Except.error "HTTPError" := rfl
